import Mathlib

/-!
Verification of the SWORD deposit lifecycle and storage-backend layer of the
archivematica storage service, shallowly embedded from
`storage_service/locations/api/sword/views.py` and
`storage_service/locations/models.py`.

Filesystem and database effects are made explicit: each embedded handler takes
the probed environment facts it reads (directory-entry counts, path-existence
probes, the results of external subprocess calls) as arguments and returns the
response together with the state it writes.
-/

/-! ## Aggregate downloading status (views.py `deposit_downloading_status`, lines 37-58)

A deposit's `LocationDownloadTask` rows each report a per-task status string
via `downloading_status()` (a model method of `LocationDownloadTask`); the
aggregate function loops over the tasks maintaining a `complete` flag
(initially `True`, cleared when a task's status is not `'complete'`) and a
`failed` flag (initially `False`, set when a non-complete task's status is
`'failed'`), then returns `'failed'`, `'complete'` or `'incomplete'`.
A deposit with no tasks is `'complete'`. We embed the task list as the list of
the per-task status strings. -/

def depositStatusStep (cf : Bool × Bool) (status : String) : Bool × Bool :=
  if status ≠ "complete" then
    (false, if status = "failed" then true else cf.2)
  else cf

def deposit_downloading_status (tasks : List String) : String :=
  if tasks.length > 0 then
    let cf := tasks.foldl depositStatusStep (true, false)
    if cf.2 then
      "failed"
    else
      if cf.1 then "complete" else "incomplete"
  else
    "complete"

/-! Characterisation of the two flags computed by the loop. -/

lemma deposit_status_fold_fst (tasks : List String) (c f : Bool) :
    (tasks.foldl depositStatusStep (c, f)).1 =
      (c && tasks.all (fun s => s == "complete")) := by
  induction tasks generalizing c f with
  | nil => simp
  | cons hd tl ih =>
    rw [List.foldl_cons]
    by_cases h : hd = "complete"
    · have hred : depositStatusStep (c, f) hd = (c, f) := by
        simp [depositStatusStep, h]
      rw [hred, ih, List.all_cons]
      simp [h]
    · have hred : depositStatusStep (c, f) hd =
          (false, if hd = "failed" then true else f) := by
        simp [depositStatusStep, h]
      rw [hred, ih, List.all_cons]
      simp [h]

lemma deposit_status_fold_snd (tasks : List String) (c f : Bool) :
    (tasks.foldl depositStatusStep (c, f)).2 =
      (f || tasks.any (fun s => s == "failed")) := by
  induction tasks generalizing c f with
  | nil => simp
  | cons hd tl ih =>
    rw [List.foldl_cons]
    by_cases h : hd = "complete"
    · have hred : depositStatusStep (c, f) hd = (c, f) := by
        simp [depositStatusStep, h]
      have hne : (hd == "failed") = false := by
        simp [h]
      rw [hred, ih, List.any_cons, hne]
      simp
    · have hred : depositStatusStep (c, f) hd =
          (false, if hd = "failed" then true else f) := by
        simp [depositStatusStep, h]
      rw [hred, ih, List.any_cons]
      by_cases hf : hd = "failed"
      · simp [hf]
      · have hne : (hd == "failed") = false := by
          simp [hf]
        rw [hne]
        simp [hf]

/-! Closed form of the aggregate status in terms of `List.any` / `List.all`. -/

lemma deposit_downloading_status_closed (tasks : List String) :
    deposit_downloading_status tasks =
      (if tasks.any (fun s => s == "failed") then "failed"
       else if tasks.all (fun s => s == "complete") then "complete"
       else "incomplete") := by
  unfold deposit_downloading_status
  cases tasks with
  | nil => simp
  | cons hd tl =>
    simp only [List.length_cons, Nat.succ_pos, if_true, gt_iff_lt,
      deposit_status_fold_fst, deposit_status_fold_snd, Bool.true_and,
      Bool.false_or]

/-- C1: the aggregate downloading status is always one of
`complete`/`incomplete`/`failed`; it is `complete` exactly when the deposit has
zero download tasks or every task's status is `complete`; `failed` exactly when
at least one task's status is `failed`; and `incomplete` exactly in the
remaining case (some task not complete and no task failed). -/
theorem c1_deposit_downloading_status_cases (tasks : List String) :
    (deposit_downloading_status tasks = "complete" ∨
     deposit_downloading_status tasks = "incomplete" ∨
     deposit_downloading_status tasks = "failed") ∧
    (deposit_downloading_status tasks = "complete" ↔
      (tasks = [] ∨ ∀ s ∈ tasks, s = "complete")) ∧
    (deposit_downloading_status tasks = "failed" ↔
      (∃ s ∈ tasks, s = "failed")) ∧
    (deposit_downloading_status tasks = "incomplete" ↔
      ((∃ s ∈ tasks, s ≠ "complete") ∧ ∀ s ∈ tasks, s ≠ "failed")) := by
  rw [deposit_downloading_status_closed]
  by_cases hfail : tasks.any (fun s => s == "failed")
  · have hex : ∃ s ∈ tasks, s = "failed" := by
      simpa using List.any_eq_true.mp hfail
    obtain ⟨t, ht, htf⟩ := hex
    have hnotall : ¬ (tasks = [] ∨ ∀ s ∈ tasks, s = "complete") := by
      rintro (h | hall)
      · rw [h] at ht
        exact absurd ht (List.not_mem_nil t)
      · have := hall t ht
        rw [this] at htf
        exact absurd htf (by decide)
    have hnof : ¬ ∀ s ∈ tasks, s ≠ "failed" := fun hno => hno t ht htf
    refine ⟨Or.inr (Or.inr (by simp [hfail])), ?_, ?_, ?_⟩
    · rw [if_pos hfail]
      constructor
      · intro h
        exact absurd h (by decide)
      · intro h
        exact absurd h hnotall
    · rw [if_pos hfail]
      exact ⟨fun _ => ⟨t, ht, htf⟩, fun _ => rfl⟩
    · rw [if_pos hfail]
      constructor
      · intro h
        exact absurd h (by decide)
      · rintro ⟨_, hno⟩
        exact absurd hno hnof
  · have hnoex : ¬ ∃ s ∈ tasks, s = "failed" := by
      rintro ⟨s, hs, hsf⟩
      exact hfail (List.any_eq_true.mpr ⟨s, hs, by simp [hsf]⟩)
    have hnof : ∀ s ∈ tasks, s ≠ "failed" := by
      intro s hs hsf
      exact hnoex ⟨s, hs, hsf⟩
    rw [if_neg hfail]
    by_cases hall : tasks.all (fun s => s == "complete")
    · have hallp : ∀ s ∈ tasks, s = "complete" := by
        intro s hs
        simpa using List.all_eq_true.mp hall s hs
      rw [if_pos hall]
      refine ⟨Or.inl rfl, ?_, ?_, ?_⟩
      · exact ⟨fun _ => Or.inr hallp, fun _ => rfl⟩
      · constructor
        · intro h
          exact absurd h (by decide)
        · intro h
          exact absurd h hnoex
      · constructor
        · intro h
          exact absurd h (by decide)
        · rintro ⟨⟨s, hs, hsne⟩, _⟩
          exact absurd (hallp s hs) hsne
    · have hexne : ∃ s ∈ tasks, s ≠ "complete" := by
        by_contra hno
        push_neg at hno
        exact hall (List.all_eq_true.mpr fun s hs => by simp [hno s hs])
      have hnotall : ¬ (tasks = [] ∨ ∀ s ∈ tasks, s = "complete") := by
        rintro (h | hallp)
        · obtain ⟨s, hs, _⟩ := hexne
          rw [h] at hs
          exact absurd hs (List.not_mem_nil s)
        · obtain ⟨s, hs, hsne⟩ := hexne
          exact hsne (hallp s hs)
      rw [if_neg hall]
      refine ⟨Or.inr (Or.inl rfl), ?_, ?_, ?_⟩
      · constructor
        · intro h
          exact absurd h (by decide)
        · intro h
          exact absurd h hnotall
      · constructor
        · intro h
          exact absurd h (by decide)
        · intro h
          exact absurd h hnoex
      · exact ⟨fun _ => ⟨hexne, hnof⟩, fun _ => rfl⟩

/-! ## Upload with optional Content-MD5 check
(views.py `_handle_upload_request_with_potential_md5_checksum`, lines 618-633)

The handler writes the request body to a temp file, and when an
`HTTP_CONTENT_MD5` header is present compares it against the digest of the
temp file (`helpers.get_file_md5_checksum`, modelled as an abstract digest
function over the received bytes).  On mismatch it removes the temp file and
returns a 400 checksum-mismatch error without touching the target path; on
match (or with no header) it copies the temp file to the target path and
removes the temp file.  We track the target path's content (`none` = absent)
and whether the temp payload was removed. -/

structure UploadOutcome where
  status : Nat
  checksumMismatch : Bool
  target : Option (List Nat)
  tempRemoved : Bool
  deriving DecidableEq

def handle_upload_request_with_potential_md5_checksum
    (md5 : List Nat → String) (contentMd5Header : Option String)
    (body : List Nat) (target0 : Option (List Nat))
    (success_status_code : Nat) : UploadOutcome :=
  match contentMd5Header with
  | some headerVal =>
      let md5sum := md5 body
      if headerVal ≠ md5sum then
        { status := 400, checksumMismatch := true, target := target0,
          tempRemoved := true }
      else
        { status := success_status_code, checksumMismatch := false,
          target := some body, tempRemoved := true }
  | none =>
      { status := success_status_code, checksumMismatch := false,
        target := some body, tempRemoved := true }

/-- C2: when the Content-MD5 header differs from the digest of the received
bytes, the handler removes the temp payload, leaves the target path unchanged
and returns a checksum-mismatch error with status 400; when the header equals
the digest, the file stored at the target path is byte-identical to the
received bytes. -/
theorem c2_upload_md5_checksum (md5 : List Nat → String) (headerVal : String)
    (body : List Nat) (target0 : Option (List Nat)) (code : Nat) :
    (headerVal ≠ md5 body →
      handle_upload_request_with_potential_md5_checksum md5 (some headerVal)
          body target0 code =
        { status := 400, checksumMismatch := true, target := target0,
          tempRemoved := true }) ∧
    (headerVal = md5 body →
      handle_upload_request_with_potential_md5_checksum md5 (some headerVal)
          body target0 code =
        { status := code, checksumMismatch := false, target := some body,
          tempRemoved := true }) := by
  constructor
  · intro hne
    simp [handle_upload_request_with_potential_md5_checksum, hne]
  · intro heq
    simp [handle_upload_request_with_potential_md5_checksum, heq]

/-- Witness for C2 at concrete inputs: a mismatching header (digest function
constantly `"d41d8"`, header `"beef"`) is rejected with the target untouched,
and a matching header stores the body. -/
theorem c2_upload_md5_checksum_witness :
    handle_upload_request_with_potential_md5_checksum (fun _ => "d41d8")
        (some "beef") [1, 2] none 201 =
      { status := 400, checksumMismatch := true, target := none,
        tempRemoved := true } ∧
    handle_upload_request_with_potential_md5_checksum (fun _ => "d41d8")
        (some "d41d8") [1, 2] none 201 =
      { status := 201, checksumMismatch := false, target := some [1, 2],
        tempRemoved := true } :=
  ⟨(c2_upload_md5_checksum (fun _ => "d41d8") "beef" [1, 2] none 201).1
      (by decide),
   (c2_upload_md5_checksum (fun _ => "d41d8") "d41d8" [1, 2] none 201).2 rfl⟩

/-! ## Space verification (models.py `LocalFilesystem.verify` lines 79-84,
`NFS.verify` lines 140-146)

`LocalFilesystem.verify` probes `os.path.isdir(space.path)` and writes the
result into the owning Space's `verified` field, stamping `last_verified` with
the current time.  `NFS.verify` does the same with `os.path.ismount` but only
when `manually_mounted` is set; otherwise it does nothing at all.  Both are
straight-line code over total library probes (`isdir`/`ismount` return `False`
for missing paths rather than raising), embedded as total functions on the
Space's mutable verification fields, taking the probe result and clock as
inputs. -/

structure SpaceVerification where
  verified : Bool
  last_verified : Option Nat
  deriving DecidableEq

def LocalFilesystem.verify (isdir : Bool) (now : Nat)
    (_s : SpaceVerification) : SpaceVerification :=
  { verified := isdir, last_verified := some now }

def NFS.verify (manually_mounted : Bool) (ismount : Bool) (now : Nat)
    (s : SpaceVerification) : SpaceVerification :=
  if manually_mounted then
    { verified := ismount, last_verified := some now }
  else
    s

/-- C8: verifying a local-filesystem space whose root path does not exist
(`os.path.isdir` probe false), or a manually mounted NFS space that is not
mounted (`os.path.ismount` probe false), sets the owning Space's `verified`
flag to false and stamps `last_verified` with the current time; both
embeddings are total functions, so no exception is raised. -/
theorem c8_verify_missing_root (now : Nat) (s : SpaceVerification) :
    LocalFilesystem.verify false now s =
      { verified := false, last_verified := some now } ∧
    NFS.verify true false now s =
      { verified := false, last_verified := some now } := by
  constructor
  · rfl
  · rfl

/-- C10: for an NFS space with `manually_mounted` false, `verify()` leaves the
owning Space's `verified` flag and `last_verified` timestamp completely
unchanged, whatever the mount probe would have said. -/
theorem c10_nfs_verify_unmanaged_frame (ismount : Bool) (now : Nat)
    (s : SpaceVerification) :
    NFS.verify false ismount now s = s := by
  rfl

/-! ## AIP storage (models.py `LocalFilesystem.store_aip` lines 86-117 and
`NFS.store_aip` lines 157-190)

Both implementations share the same body: compute the sharded destination,
`os.makedirs` the parent directory — an `OSError` with errno 17 (directory
already exists) is tolerated, any other errno logs and returns `-1` — then run
`subprocess.call(['rsync', '-a', source, destination])` inside a
`try/except CalledProcessError` block that logs and returns `-1`.

`subprocess.call`, however, returns the child's exit status and never raises
`CalledProcessError` (that is `check_call`'s behaviour), so the `except`
branch is unreachable and a non-zero rsync status falls through to the
implicit `return None`.  (`CalledProcessError` is moreover referenced as a
bare name with only `import subprocess` in scope.)  We embed the environment
as the `makedirs` outcome (`none` = success, `some errno` = `OSError errno`)
and the rsync exit status; the result is `some (-1)` for an error return and
`none` for the implicit `None`. -/

def store_aip_body (makedirsError : Option Nat) (rsyncStatus : Int) :
    Option Int :=
  match makedirsError with
  | some errno =>
      if errno ≠ 17 then
        some (-1)
      else
        -- subprocess.call returns rsyncStatus without raising
        -- CalledProcessError, so the except branch never runs and the
        -- function falls through to the implicit None
        none
  | none => none

def LocalFilesystem.store_aip (makedirsError : Option Nat)
    (rsyncStatus : Int) : Option Int :=
  store_aip_body makedirsError rsyncStatus

def NFS.store_aip (makedirsError : Option Nat) (rsyncStatus : Int) :
    Option Int :=
  store_aip_body makedirsError rsyncStatus

/-- C5 (code bug): directory-creation failure with an errno other than 17 is
an error return, errno 17 is tolerated, but a copy subprocess reporting
non-zero status (here rsync exit status 23) is silently ignored and the
operation still returns success — `subprocess.call` never raises
`CalledProcessError`, so the intended Transfer-failure branch is dead code,
contrary to the claim that a non-zero copy status fails the operation. -/
theorem c5_store_aip_ignores_rsync_status :
    LocalFilesystem.store_aip (some 13) 0 = some (-1) ∧
    NFS.store_aip (some 13) 0 = some (-1) ∧
    LocalFilesystem.store_aip (some 17) 0 = none ∧
    LocalFilesystem.store_aip none 23 = none ∧
    NFS.store_aip none 23 = none := by
  refine ⟨rfl, rfl, rfl, rfl, rfl⟩

/-! ## Pipeline approval handoff
(views.py `_activate_transfer_and_request_approval_from_pipeline`, lines 478-525)

The client first loops over the pipeline properties `remote_name`,
`api_username`, `api_key`; if any is the empty string it attempts to return
`_sword_error_response(request, 500, ...)` — but `request` is not a parameter
of this function and is bound nowhere in its scope (the line carries a
`TODO: fix this` comment), so the branch raises `NameError` instead of
producing the response, contradicting the function's docstring, which promises
a `{'error': ..., 'message': ...}` dict.  Otherwise it moves the deposit
directory to the pipeline's watched-transfer destination, sleeps, and issues
the approval request; if `urllib2.urlopen` raises, it moves the directory back
to the deposit path and returns an error dict; on response it returns the
parsed JSON.  We track where the deposit directory ends up (`dirAt`) and
whether the remote endpoint was called. -/

structure SwordPipeline where
  remote_name : String
  api_username : String
  api_key : String
  uuid : String
  deriving DecidableEq

inductive ActivateOutcome where
  | nameError
  | errorDict (message : String)
  | approvedJson (responseHasErrorKey : Bool)
  deriving DecidableEq

structure ActivateRun where
  outcome : ActivateOutcome
  dirAt : String
  remoteCalled : Bool
  deriving DecidableEq

def activate_transfer_and_request_approval_from_pipeline
    (pipeline : SwordPipeline) (depositPath destinationPath : String)
    (urlopenFails : Bool) (responseHasErrorKey : Bool) : ActivateRun :=
  if pipeline.remote_name = "" ∨ pipeline.api_username = "" ∨
      pipeline.api_key = "" then
    -- misconfiguration branch: building the 500 response references the
    -- undefined name `request` and raises NameError before any move or call
    { outcome := .nameError, dirAt := depositPath, remoteCalled := false }
  else
    -- shutil.move(deposit.full_path(), destination_path); time.sleep(4);
    -- urllib2.urlopen(approve_request)
    if urlopenFails then
      { outcome := .errorDict ("Request to pipeline " ++ pipeline.uuid ++
          " transfer approval API failed: check credentials and REST API IP whitelist."),
        dirAt := depositPath,
        remoteCalled := true }
    else
      { outcome := .approvedJson responseHasErrorKey,
        dirAt := destinationPath, remoteCalled := true }

/-- Modelled from the spec: `Location.has_been_submitted_for_processing` is
declared on the deposit model, which is not under src/; per the spec a deposit
counts as submitted for processing exactly when its content has been
physically relocated out of its deposit path. -/
def has_been_submitted_for_processing (run : ActivateRun)
    (depositPath : String) : Bool :=
  decide (run.dirAt ≠ depositPath)

/-- C6: when the pipeline configuration check passes and the transport-level
approval request fails, the client ends with the deposit directory back at its
original deposit path, returns the error dict outcome, and the deposit does
not count as submitted for processing. -/
theorem c6_activate_transport_failure_moves_back (pipeline : SwordPipeline)
    (depositPath destinationPath : String) (responseHasErrorKey : Bool)
    (hr : pipeline.remote_name ≠ "") (hu : pipeline.api_username ≠ "")
    (hk : pipeline.api_key ≠ "") :
    (activate_transfer_and_request_approval_from_pipeline pipeline depositPath
        destinationPath true responseHasErrorKey).dirAt = depositPath ∧
    (activate_transfer_and_request_approval_from_pipeline pipeline depositPath
        destinationPath true responseHasErrorKey).outcome =
      .errorDict ("Request to pipeline " ++ pipeline.uuid ++
        " transfer approval API failed: check credentials and REST API IP whitelist.") ∧
    has_been_submitted_for_processing
      (activate_transfer_and_request_approval_from_pipeline pipeline
        depositPath destinationPath true responseHasErrorKey)
      depositPath = false := by
  have hcond : ¬ (pipeline.remote_name = "" ∨ pipeline.api_username = "" ∨
      pipeline.api_key = "") := by
    rintro (h | h | h)
    · exact hr h
    · exact hu h
    · exact hk h
  refine ⟨?_, ?_, ?_⟩
  · simp [activate_transfer_and_request_approval_from_pipeline, hcond]
  · simp [activate_transfer_and_request_approval_from_pipeline, hcond]
  · simp [has_been_submitted_for_processing,
      activate_transfer_and_request_approval_from_pipeline, hcond]

/-- Witness for C6 at a concrete fully configured pipeline whose approval
request fails at the transport level. -/
theorem c6_activate_transport_failure_moves_back_witness :
    (activate_transfer_and_request_approval_from_pipeline
        ⟨"host", "user", "key", "p1"⟩ "/dep" "/dest" true false).dirAt =
      "/dep" ∧
    (activate_transfer_and_request_approval_from_pipeline
        ⟨"host", "user", "key", "p1"⟩ "/dep" "/dest" true false).outcome =
      .errorDict ("Request to pipeline " ++ "p1" ++
        " transfer approval API failed: check credentials and REST API IP whitelist.") ∧
    has_been_submitted_for_processing
      (activate_transfer_and_request_approval_from_pipeline
        ⟨"host", "user", "key", "p1"⟩ "/dep" "/dest" true false) "/dep" =
      false :=
  c6_activate_transport_failure_moves_back ⟨"host", "user", "key", "p1"⟩
    "/dep" "/dest" false (by decide) (by decide) (by decide)

/-- C7 (code bug): with an empty remote host, API username or API key, the
configuration check fires before the deposit directory is moved and before any
remote call is made, but instead of returning a PipelineMisconfigured 500
error the branch raises `NameError` — it builds the response from the
undefined name `request` (flagged `TODO: fix this` in the source), despite the
function's docstring promising an error dict. -/
theorem c7_activate_misconfigured_raises :
    activate_transfer_and_request_approval_from_pipeline
        ⟨"", "user", "key", "p1"⟩ "/dep" "/dest" false false =
      { outcome := .nameError, dirAt := "/dep", remoteCalled := false } ∧
    activate_transfer_and_request_approval_from_pipeline
        ⟨"host", "", "key", "p1"⟩ "/dep" "/dest" false false =
      { outcome := .nameError, dirAt := "/dep", remoteCalled := false } ∧
    activate_transfer_and_request_approval_from_pipeline
        ⟨"host", "user", "", "p1"⟩ "/dep" "/dest" false false =
      { outcome := .nameError, dirAt := "/dep", remoteCalled := false } := by
  refine ⟨?_, ?_, ?_⟩ <;> decide

/-! ## Finalization (views.py `_finalize_if_not_empty` lines 426-443 and
`_finalize_or_mark_for_finalization` lines 445-462)

`_finalize_if_not_empty` lists the deposit directory; with zero entries it
returns `False` without touching anything.  Otherwise it calls the pipeline
approval client; if the returned dict contains the key `'error'` it attempts
`_sword_error_response(request, 500, ...)`, which raises `NameError` (no
`request` in scope) — the misconfiguration branch inside the client likewise
raises.  Only when the result carries no `'error'` key does it stamp
`deposit_completion_time` and return `True`.

`_finalize_or_mark_for_finalization` requires the `In-Progress: false`
header (else 400); with the aggregate downloading status `'complete'` it calls
`_finalize_if_not_empty`, mapping `True` to a 200 receipt and `False` to a 400
"This deposit contains no files." error; with any other downloading status it
sets `ready_for_finalization`, saves, and then raises `NameError` while
building the receipt (it references the undefined name `uuid`). -/

inductive FinalizeReturn where
  | returnedFalse
  | raised
  | returnedTrue
  deriving DecidableEq

structure FinalizeRun where
  ret : FinalizeReturn
  stampedCompletionTime : Bool
  activateInvoked : Bool
  dirAt : String
  deriving DecidableEq

def finalize_if_not_empty (numEntries : Nat) (pipeline : SwordPipeline)
    (depositPath destinationPath : String)
    (urlopenFails responseHasErrorKey : Bool) : FinalizeRun :=
  if numEntries > 0 then
    let run := activate_transfer_and_request_approval_from_pipeline pipeline
      depositPath destinationPath urlopenFails responseHasErrorKey
    match run.outcome with
    | .nameError =>
        { ret := .raised, stampedCompletionTime := false,
          activateInvoked := true, dirAt := run.dirAt }
    | .errorDict _ =>
        -- the 'error' key is present, and building the 500 response
        -- references the undefined name `request`
        { ret := .raised, stampedCompletionTime := false,
          activateInvoked := true, dirAt := run.dirAt }
    | .approvedJson responseHasErrorKey =>
        if responseHasErrorKey then
          { ret := .raised, stampedCompletionTime := false,
            activateInvoked := true, dirAt := run.dirAt }
        else
          { ret := .returnedTrue, stampedCompletionTime := true,
            activateInvoked := true, dirAt := run.dirAt }
  else
    { ret := .returnedFalse, stampedCompletionTime := false,
      activateInvoked := false, dirAt := depositPath }

inductive SwordResponse where
  | receipt (status : Nat)
  | ok (status : Nat)
  | swordError (status : Nat) (summary : String)
  | raised
  deriving DecidableEq

structure FinalizeOrMarkRun where
  response : SwordResponse
  stampedCompletionTime : Bool
  readyFlagSet : Bool
  activateInvoked : Bool
  deriving DecidableEq

def finalize_or_mark_for_finalization (inProgressFalseHeader : Bool)
    (tasks : List String) (numEntries : Nat) (pipeline : SwordPipeline)
    (depositPath destinationPath : String)
    (urlopenFails responseHasErrorKey : Bool) : FinalizeOrMarkRun :=
  if inProgressFalseHeader then
    if deposit_downloading_status tasks = "complete" then
      let fr := finalize_if_not_empty numEntries pipeline depositPath
        destinationPath urlopenFails responseHasErrorKey
      match fr.ret with
      | .returnedTrue =>
          { response := .receipt 200, stampedCompletionTime := true,
            readyFlagSet := false, activateInvoked := true }
      | .returnedFalse =>
          { response := .swordError 400 "This deposit contains no files.",
            stampedCompletionTime := false, readyFlagSet := false,
            activateInvoked := false }
      | .raised =>
          { response := .raised, stampedCompletionTime := false,
            readyFlagSet := false, activateInvoked := true }
    else
      -- sets ready_for_finalization and saves, then raises NameError while
      -- building the receipt (the undefined name `uuid` is referenced)
      { response := .raised, stampedCompletionTime := false,
        readyFlagSet := true, activateInvoked := false }
  else
    { response := .swordError 400
        "The In-Progress header must be set to false when starting deposit processing.",
      stampedCompletionTime := false, readyFlagSet := false,
      activateInvoked := false }

/-- C3: with the `In-Progress: false` header and aggregate downloading status
`complete`, a finalize attempt comes back with the Empty error (400, "This
deposit contains no files."), no completion-time stamp and no pipeline
approval, exactly when the deposit directory holds zero entries; with at least
one entry the pipeline approval client is invoked and, when the approval
succeeds (configured pipeline, transport succeeds, response has no error key),
`deposit_completion_time` is stamped and a 200 receipt returned. -/
theorem c3_finalize_empty_iff (tasks : List String) (numEntries : Nat)
    (pipeline : SwordPipeline) (depositPath destinationPath : String)
    (urlopenFails responseHasErrorKey : Bool)
    (hstatus : deposit_downloading_status tasks = "complete") :
    ((finalize_or_mark_for_finalization true tasks numEntries pipeline
        depositPath destinationPath urlopenFails responseHasErrorKey).response =
      .swordError 400 "This deposit contains no files." ↔ numEntries = 0) ∧
    (numEntries = 0 →
      finalize_or_mark_for_finalization true tasks numEntries pipeline
          depositPath destinationPath urlopenFails responseHasErrorKey =
        { response := .swordError 400 "This deposit contains no files.",
          stampedCompletionTime := false, readyFlagSet := false,
          activateInvoked := false }) ∧
    (0 < numEntries →
      (finalize_or_mark_for_finalization true tasks numEntries pipeline
        depositPath destinationPath urlopenFails
        responseHasErrorKey).activateInvoked = true) ∧
    (0 < numEntries → pipeline.remote_name ≠ "" → pipeline.api_username ≠ "" →
      pipeline.api_key ≠ "" → urlopenFails = false →
      responseHasErrorKey = false →
      finalize_or_mark_for_finalization true tasks numEntries pipeline
          depositPath destinationPath urlopenFails responseHasErrorKey =
        { response := .receipt 200, stampedCompletionTime := true,
          readyFlagSet := false, activateInvoked := true }) := by
  rcases Nat.eq_zero_or_pos numEntries with hz | hpos
  · subst hz
    refine ⟨?_, ?_, ?_, ?_⟩
    · simp [finalize_or_mark_for_finalization, hstatus, finalize_if_not_empty]
    · intro _
      simp [finalize_or_mark_for_finalization, hstatus, finalize_if_not_empty]
    · intro h
      exact absurd h (by decide)
    · intro h
      exact absurd h (by decide)
  · have hne : numEntries ≠ 0 := Nat.pos_iff_ne_zero.mp hpos
    refine ⟨?_, ?_, ?_, ?_⟩
    · constructor
      · intro hresp
        exfalso
        revert hresp
        simp only [finalize_or_mark_for_finalization, hstatus, if_pos,
          if_true, finalize_if_not_empty, hpos]
        cases hout : (activate_transfer_and_request_approval_from_pipeline
            pipeline depositPath destinationPath urlopenFails
            responseHasErrorKey).outcome with
        | nameError => simp [hout]
        | errorDict m => simp [hout]
        | approvedJson k =>
            cases k with
            | true => simp [hout]
            | false => simp [hout]
      · intro h
        exact absurd h hne
    · intro h
      exact absurd h hne
    · intro _
      simp only [finalize_or_mark_for_finalization, hstatus, if_pos, if_true,
        finalize_if_not_empty, hpos]
      cases hout : (activate_transfer_and_request_approval_from_pipeline
          pipeline depositPath destinationPath urlopenFails
          responseHasErrorKey).outcome with
      | nameError => simp [hout]
      | errorDict m => simp [hout]
      | approvedJson k =>
          cases k with
          | true => simp [hout]
          | false => simp [hout]
    · intro _ hr hu hk hf hkye
      subst hf
      subst hkye
      have hcond : ¬ (pipeline.remote_name = "" ∨ pipeline.api_username = "" ∨
          pipeline.api_key = "") := by
        rintro (h | h | h)
        · exact hr h
        · exact hu h
        · exact hk h
      simp [finalize_or_mark_for_finalization, hstatus, finalize_if_not_empty,
        hpos, activate_transfer_and_request_approval_from_pipeline, hcond]

/-- Witness for C3: a deposit with one fully complete download task and an
empty directory is rejected with the Empty error, and the same deposit with
one directory entry and a healthy pipeline is finalized with a 200 receipt and
a stamped completion time. -/
theorem c3_finalize_empty_iff_witness :
    finalize_or_mark_for_finalization true ["complete"] 0
        ⟨"host", "user", "key", "p1"⟩ "/dep" "/dest" false false =
      { response := .swordError 400 "This deposit contains no files.",
        stampedCompletionTime := false, readyFlagSet := false,
        activateInvoked := false } ∧
    finalize_or_mark_for_finalization true ["complete"] 1
        ⟨"host", "user", "key", "p1"⟩ "/dep" "/dest" false false =
      { response := .receipt 200, stampedCompletionTime := true,
        readyFlagSet := false, activateInvoked := true } :=
  ⟨(c3_finalize_empty_iff ["complete"] 0 ⟨"host", "user", "key", "p1"⟩
      "/dep" "/dest" false false (by decide)).2.1 rfl,
   (c3_finalize_empty_iff ["complete"] 1 ⟨"host", "user", "key", "p1"⟩
      "/dep" "/dest" false false (by decide)).2.2.2 (by decide) (by decide)
      (by decide) (by decide) rfl rfl⟩

/-! ## Protocol views (views.py `deposit_edit` lines 369-420 and
`deposit_media` lines 548-584)

Both views look up the deposit, answer 404 when it does not exist, then —
before dispatching on the HTTP method — refuse with a 400
"This deposit has already been submitted for processing." error whenever
`has_been_submitted_for_processing()` reports true.  Only after that guard do
the method branches run (GET rendering, POST batch download or finalize,
PUT replace / no-op, DELETE of files or of the whole deposit).  `sideEffect`
records whether the branch writes to the deposit's directory or database row
(spawning a batch download, setting flags, stamping times, storing or removing
files, relocating the directory, deleting the row). -/

inductive HMethod where
  | get
  | post
  | put
  | delete
  | other
  deriving DecidableEq

structure ViewRun where
  response : SwordResponse
  sideEffect : Bool
  deriving DecidableEq

def deposit_edit (depositExists submitted : Bool) (method : HMethod)
    (bodyNonempty metsParses inProgressFalseHeader : Bool)
    (tasks : List String) (numEntries : Nat) (pipeline : SwordPipeline)
    (depositPath destinationPath : String)
    (urlopenFails responseHasErrorKey : Bool) : ViewRun :=
  if ¬ depositExists then
    { response := .swordError 404 "Deposit location does not exist.",
      sideEffect := false }
  else if submitted then
    { response := .swordError 400
        "This deposit has already been submitted for processing.",
      sideEffect := false }
  else
    match method with
    | .get => { response := .ok 200, sideEffect := false }
    | .post =>
        if bodyNonempty then
          if metsParses then
            -- spawns the batch download and, with In-Progress false, sets
            -- ready_for_finalization first
            { response := .receipt 200, sideEffect := true }
          else
            -- the 412 error message interpolates the undefined name `e`,
            -- raising NameError
            { response := .raised, sideEffect := false }
        else
          if inProgressFalseHeader then
            let fr := finalize_or_mark_for_finalization true tasks numEntries
              pipeline depositPath destinationPath urlopenFails
              responseHasErrorKey
            { response := fr.response,
              sideEffect := fr.stampedCompletionTime || fr.readyFlagSet ||
                fr.activateInvoked }
          else
            { response := .receipt 200, sideEffect := false }
    | .put => { response := .ok 204, sideEffect := false }
    | .delete =>
        -- shutil.rmtree(deposit.full_path()); deposit.delete()
        { response := .ok 204, sideEffect := true }
    | .other =>
        { response := .swordError 405
            "This endpoint only responds to the GET, POST, PUT, and DELETE HTTP methods.",
          sideEffect := false }

def handle_upload_request (md5 : List Nat → String) (replace_file : Bool)
    (hasContentDisposition : Bool) (filename : String) (targetExists : Bool)
    (contentMd5Header : Option String) (body : List Nat)
    (target0 : Option (List Nat)) (success_status_code : Nat) : ViewRun :=
  if hasContentDisposition then
    if filename ≠ "" then
      if replace_file then
        if targetExists then
          let u := handle_upload_request_with_potential_md5_checksum md5
            contentMd5Header body target0 success_status_code
          if u.checksumMismatch then
            -- the 400 message interpolates both digests
            { response := .swordError 400
                "MD5 checksum of uploaded file does not match checksum provided in header.",
              sideEffect := false }
          else
            { response := .ok success_status_code, sideEffect := true }
        else
          { response := .swordError 400 "File does not exist.",
            sideEffect := false }
      else
        if targetExists then
          { response := .swordError 400 "File already exists.",
            sideEffect := false }
        else
          let u := handle_upload_request_with_potential_md5_checksum md5
            contentMd5Header body target0 success_status_code
          if u.checksumMismatch then
            { response := .swordError 400
                "MD5 checksum of uploaded file does not match checksum provided in header.",
              sideEffect := false }
          else
            { response := .ok success_status_code, sideEffect := true }
    else
      { response := .swordError 400
          "No filename found in Content-disposition header.",
        sideEffect := false }
  else
    { response := .swordError 400
        "Content-disposition must be set in request header.",
      sideEffect := false }

def deposit_media (depositExists submitted : Bool) (method : HMethod)
    (md5 : List Nat → String) (hasContentDisposition : Bool)
    (filename : String) (targetExists : Bool)
    (contentMd5Header : Option String) (body : List Nat)
    (target0 : Option (List Nat)) (deleteFilenameParam : String)
    (deleteTargetExists : Bool) (mediaEntries : Nat) : ViewRun :=
  if ¬ depositExists then
    { response := .swordError 404 "Deposit location does not exist.",
      sideEffect := false }
  else if submitted then
    { response := .swordError 400
        "This deposit has already been submitted for processing.",
      sideEffect := false }
  else
    match method with
    | .get => { response := .ok 200, sideEffect := false }
    | .put =>
        handle_upload_request md5 true hasContentDisposition filename
          targetExists contentMd5Header body target0 204
    | .post =>
        handle_upload_request md5 false hasContentDisposition filename
          targetExists contentMd5Header body target0 201
    | .delete =>
        if deleteFilenameParam ≠ "" then
          if deleteTargetExists then
            { response := .ok 204, sideEffect := true }
          else
            { response := .swordError 404
                "The path to this file does not exist.",
              sideEffect := false }
        else
          -- removes every entry of the deposit directory
          { response := .ok 204, sideEffect := decide (0 < mediaEntries) }
    | .other =>
        { response := .swordError 405
            "This endpoint only responds to the GET, POST, PUT, and DELETE HTTP methods.",
          sideEffect := false }

/-- C4: on a deposit that has been submitted for processing, every request to
the edit-IRI view and to the media view — whatever the HTTP method (upload,
file delete, finalize, deposit delete included) and whatever the rest of the
request — is refused with the 400 already-submitted error before any side
effect on the deposit's directory or database row. -/
theorem c4_submitted_guard (method : HMethod)
    (bodyNonempty metsParses inProgressFalseHeader : Bool)
    (tasks : List String) (numEntries : Nat) (pipeline : SwordPipeline)
    (depositPath destinationPath : String)
    (urlopenFails responseHasErrorKey : Bool) (md5 : List Nat → String)
    (hasContentDisposition : Bool) (filename : String) (targetExists : Bool)
    (contentMd5Header : Option String) (body : List Nat)
    (target0 : Option (List Nat)) (deleteFilenameParam : String)
    (deleteTargetExists : Bool) (mediaEntries : Nat) :
    deposit_edit true true method bodyNonempty metsParses
        inProgressFalseHeader tasks numEntries pipeline depositPath
        destinationPath urlopenFails responseHasErrorKey =
      { response := .swordError 400
          "This deposit has already been submitted for processing.",
        sideEffect := false } ∧
    deposit_media true true method md5 hasContentDisposition filename
        targetExists contentMd5Header body target0 deleteFilenameParam
        deleteTargetExists mediaEntries =
      { response := .swordError 400
          "This deposit has already been submitted for processing.",
        sideEffect := false } := by
  constructor
  · simp [deposit_edit]
  · simp [deposit_media]

/-! ## The finalize-on-last-batch race (views.py `_fetch_content`, lines 73-105)

Each batch download runs in its own spawned process; after recording its
download results it executes the bare check-then-act

  `if deposit.ready_for_finalization and deposit_downloading_status(...) == 'complete':`
  `    _finalize_if_not_empty(deposit_uuid)`

with no lock, compare-and-swap or any other synchronisation.  We model two
concurrent batch workers for one deposit that is already flagged
`ready_for_finalization`; each worker's program is two atomic database steps:
first record its own task as fully downloaded (its per-task status becomes
`'complete'`), then run the check and, if it passes, invoke the pipeline
approval handoff.  A schedule is the interleaving order of the two workers'
steps. -/

structure RaceState where
  task1 : String
  task2 : String
  ready_for_finalization : Bool
  activations : Nat
  deriving DecidableEq

inductive WorkerStep where
  | finishTask
  | checkThenAct
  deriving DecidableEq

def runWorkerStep (wid : Bool) (step : WorkerStep) (s : RaceState) :
    RaceState :=
  match step with
  | .finishTask =>
      if wid then { s with task2 := "complete" }
      else { s with task1 := "complete" }
  | .checkThenAct =>
      if s.ready_for_finalization ∧
          deposit_downloading_status [s.task1, s.task2] = "complete" then
        { s with activations := s.activations + 1 }
      else s

def fetchContentProgram : List WorkerStep :=
  [.finishTask, .checkThenAct]

def runInterleaving : List Bool → List WorkerStep → List WorkerStep →
    RaceState → RaceState
  | [], _, _, s => s
  | wid :: rest, p1, p2, s =>
      if wid then
        match p2 with
        | [] => runInterleaving rest p1 [] s
        | st :: p2rest => runInterleaving rest p1 p2rest (runWorkerStep true st s)
      else
        match p1 with
        | [] => runInterleaving rest [] p2 s
        | st :: p1rest => runInterleaving rest p1rest p2 (runWorkerStep false st s)

def raceInit : RaceState :=
  { task1 := "incomplete", task2 := "incomplete",
    ready_for_finalization := true, activations := 0 }

def runRace (schedule : List Bool) : RaceState :=
  runInterleaving schedule fetchContentProgram fetchContentProgram raceInit

/-- C9 (code bug): under the overlapping schedule in which both batches finish
their downloads before either runs the ready-and-complete check, both checks
observe aggregate status `complete` and the pipeline approval handoff is
invoked twice for the one deposit; only the serial schedule yields exactly one
invocation — the unsynchronised check-then-act is not atomic. -/
theorem c9_double_finalize_race :
    (runRace [false, true, false, true]).activations = 2 ∧
    (runRace [false, false, true, true]).activations = 1 := by
  constructor
  · decide
  · decide
